import Mathlib

/-!
# Verification of the study-focus inference engine

Shallow embedding of the attention / activity / focus-score core of the
repository (a Python study-quality monitor).  Two implementation lineages
coexist in the source tree and both are embedded:

* `modules/…` — `DecisionEngine`, `FocusCalculator`, `FaceTracker`
  (enum-based, moving-average smoothing, duration + blink-rate drowsiness);
* `src/…` — `ActivityEngine`, `FocusScorer`, `FaceTracker`
  (string-based, exponential smoothing, consecutive-frame drowsiness).

Python `float` arithmetic on these small decimal constants is modelled by
exact rationals (`Rat`); Python `int(x)` (truncation toward zero) is
modelled by `py_int`.  Angles and trigonometry in the head-pose estimator
are modelled over `ℝ`.
-/

/-- `utils/helpers.py` enum `AttentionState` (values are the strings). -/
inductive AttentionState where
  | FOCUSED
  | DISTRACTED
  | DROWSY
deriving DecidableEq, Repr, Fintype

/-- `utils/helpers.py` enum `ContentCategory`. -/
inductive ContentCategory where
  | STUDY
  | EDUCATIONAL_VIDEO
  | DISTRACTION_VIDEO
  | SOCIAL_MEDIA
  | OTHER
deriving DecidableEq, Repr, Fintype

/-- `utils/helpers.py` enum `ActivityStatus`. -/
inductive ActivityStatus where
  | PRODUCTIVE
  | LEARNING
  | LOW_FOCUS
  | DISTRACTED
  | FATIGUED
  | NEUTRAL
deriving DecidableEq, Repr, Fintype

/-- The `.value` string of an `AttentionState`, as used by the string-based
`src/` lineage. -/
def AttentionState.value : AttentionState → String
  | .FOCUSED => "FOCUSED"
  | .DISTRACTED => "DISTRACTED"
  | .DROWSY => "DROWSY"

/-- The `.value` string of a `ContentCategory`. -/
def ContentCategory.value : ContentCategory → String
  | .STUDY => "STUDY"
  | .EDUCATIONAL_VIDEO => "EDUCATIONAL_VIDEO"
  | .DISTRACTION_VIDEO => "DISTRACTION_VIDEO"
  | .SOCIAL_MEDIA => "SOCIAL_MEDIA"
  | .OTHER => "OTHER"

/-- `utils/helpers.py` `clamp(value, min_val, max_val) =
max(min_val, min(max_val, value))`, on the integer scores it is used with. -/
def clamp (value min_val max_val : Int) : Int :=
  max min_val (min max_val value)

/-- Python `int(q)`: truncation toward zero of the (exact-rational model of
the) float `q`. -/
def py_int (q : Rat) : Int :=
  if 0 ≤ q then ⌊q⌋ else ⌈q⌉

/-- `collections.deque(maxlen := n)` append: keep the last `n` elements. -/
def deque_append {α : Type} (maxlen : Nat) (l : List α) (x : α) : List α :=
  let l2 := l ++ [x]
  l2.drop (l2.length - maxlen)

/-! ## `src/config.py` constants -/

def EAR_THRESHOLD : Rat := 0.25

def EAR_CONSEC_FRAMES : Nat := 3

def GAZE_THRESHOLD : Rat := 0.15

def HEAD_PITCH_THRESHOLD : Rat := 20

def HEAD_YAW_THRESHOLD : Rat := 25

def FACE_FOCUSED_POINTS : Int := 40

def SCREEN_PRODUCTIVE_POINTS : Int := 30

def FACE_DISTRACTED_PENALTY : Int := -40

def FACE_DROWSY_PENALTY : Int := -30

def SCREEN_DISTRACTION_PENALTY : Int := -40

def MIN_FOCUS_SCORE : Int := 0

def MAX_FOCUS_SCORE : Int := 100

/-! ## `modules/decision_engine.py` -/

/-- `DecisionEngine.determine_activity`: the priority if-chain of
`modules/decision_engine.py` lines 61-95. -/
def DecisionEngine.determine_activity
    (face_state : AttentionState) (screen_category : ContentCategory) :
    ActivityStatus :=
  if face_state = AttentionState.DROWSY then
    ActivityStatus.FATIGUED
  else if screen_category = ContentCategory.DISTRACTION_VIDEO ∨
      screen_category = ContentCategory.SOCIAL_MEDIA then
    ActivityStatus.DISTRACTED
  else if face_state = AttentionState.DISTRACTED then
    (if screen_category = ContentCategory.STUDY ∨
        screen_category = ContentCategory.EDUCATIONAL_VIDEO then
      ActivityStatus.LOW_FOCUS
    else
      ActivityStatus.DISTRACTED)
  else if face_state = AttentionState.FOCUSED then
    (if screen_category = ContentCategory.STUDY then
      ActivityStatus.PRODUCTIVE
    else if screen_category = ContentCategory.EDUCATIONAL_VIDEO then
      ActivityStatus.LEARNING
    else
      ActivityStatus.NEUTRAL)
  else
    ActivityStatus.NEUTRAL

/-! ## `src/logic.py` — `ActivityEngine` -/

/-- `ActivityEngine.DECISION_MATRIX`: the static string lookup table of
`src/logic.py` lines 21-40. -/
def ActivityEngine.DECISION_MATRIX : List ((String × String) × String) :=
  [(("FOCUSED", "STUDY"), "PRODUCTIVE"),
   (("FOCUSED", "EDUCATIONAL_VIDEO"), "LEARNING"),
   (("FOCUSED", "DISTRACTION_VIDEO"), "DISTRACTED"),
   (("FOCUSED", "SOCIAL_MEDIA"), "DISTRACTED"),
   (("FOCUSED", "OTHER"), "LOW_FOCUS"),
   (("DISTRACTED", "STUDY"), "LOW_FOCUS"),
   (("DISTRACTED", "EDUCATIONAL_VIDEO"), "LOW_FOCUS"),
   (("DISTRACTED", "DISTRACTION_VIDEO"), "DISTRACTED"),
   (("DISTRACTED", "SOCIAL_MEDIA"), "DISTRACTED"),
   (("DISTRACTED", "OTHER"), "DISTRACTED"),
   (("DROWSY", "STUDY"), "FATIGUED"),
   (("DROWSY", "EDUCATIONAL_VIDEO"), "FATIGUED"),
   (("DROWSY", "DISTRACTION_VIDEO"), "FATIGUED"),
   (("DROWSY", "SOCIAL_MEDIA"), "FATIGUED"),
   (("DROWSY", "OTHER"), "FATIGUED")]

/-- `ActivityEngine.determine_activity`: dictionary lookup with default
`"LOW_FOCUS"` (`src/logic.py` line 55). -/
def ActivityEngine.determine_activity
    (face_state screen_class : String) : String :=
  (ActivityEngine.DECISION_MATRIX.lookup (face_state, screen_class)).getD
    "LOW_FOCUS"

/-! ## `modules/focus_calculator.py` — `FocusCalculator` -/

/-- `FocusCalculator.calculate_score` (lines 44-99): base 50, face and
screen contributions, clamped to `[0, 100]`. -/
def FocusCalculator.calculate_score
    (face_state : AttentionState) (screen_category : ContentCategory) :
    Int :=
  let base_score : Int := 50
  let score := base_score
  let score :=
    if face_state = AttentionState.FOCUSED then score + 40
    else if face_state = AttentionState.DROWSY then score - 30
    else score
  let score :=
    if screen_category = ContentCategory.STUDY ∨
        screen_category = ContentCategory.EDUCATIONAL_VIDEO then score + 30
    else if screen_category = ContentCategory.DISTRACTION_VIDEO ∨
        screen_category = ContentCategory.SOCIAL_MEDIA then score - 40
    else score
  clamp score 0 100

/-- `FocusCalculator.get_average_score` (lines 101-112):
`0` on empty history, otherwise `int(sum / len)`. -/
def FocusCalculator.get_average_score (score_history : List Int) : Int :=
  if score_history = [] then 0
  else py_int ((score_history.sum : Rat) / (score_history.length : Rat))

/-- `FocusCalculator.get_current_score` (lines 114-123):
`0` on empty history, otherwise the last recorded score. -/
def FocusCalculator.get_current_score (score_history : List Int) : Int :=
  match score_history.getLast? with
  | none => 0
  | some s => s

/-- `FocusCalculator.reset_history` (lines 125-130): clear the history. -/
def FocusCalculator.reset_history (score_history : List Int) : List Int :=
  let _ := score_history
  []

/-! ## `src/logic.py` — `FocusScorer` -/

/-- The pre-smoothing (instantaneous) score computed inside
`FocusScorer.calculate_score` (`src/logic.py` lines 92-109): starts at `0`,
adds the `src/config.py` face and screen contributions, clamps to
`[MIN_FOCUS_SCORE, MAX_FOCUS_SCORE]` via `max(MIN, min(MAX, score))`. -/
def FocusScorer.instantaneous (face_state screen_class : String) : Int :=
  let score : Int := 0
  let score :=
    if face_state = "FOCUSED" then score + FACE_FOCUSED_POINTS
    else if face_state = "DISTRACTED" then score + FACE_DISTRACTED_PENALTY
    else if face_state = "DROWSY" then score + FACE_DROWSY_PENALTY
    else score
  let score :=
    if screen_class = "STUDY" ∨ screen_class = "EDUCATIONAL_VIDEO" then
      score + SCREEN_PRODUCTIVE_POINTS
    else if screen_class = "DISTRACTION_VIDEO" ∨
        screen_class = "SOCIAL_MEDIA" then
      score + SCREEN_DISTRACTION_PENALTY
    else score
  max MIN_FOCUS_SCORE (min MAX_FOCUS_SCORE score)

/-- `FocusScorer.calculate_score` (`src/logic.py` lines 81-114): the new value
of `self.current_score`, namely `int(0.7 * current_score + 0.3 * score)`
where `score` is the clamped instantaneous score. -/
def FocusScorer.calculate_score
    (current_score : Int) (face_state screen_class : String) : Int :=
  let score := FocusScorer.instantaneous face_state screen_class
  py_int (0.7 * (current_score : Rat) + 0.3 * (score : Rat))

/-- Running `FocusScorer.calculate_score` over a whole sequence of
`(face_state, screen_class)` readings, starting from the constructor's
initial `current_score = 50`. -/
def FocusScorer.run (readings : List (String × String)) : Int :=
  readings.foldl
    (fun current_score r => FocusScorer.calculate_score current_score r.1 r.2)
    50

/-! ## Spec-side scoring formula (§4.4 of the specification)

These definitions follow the specification's words, for comparison with the
implementations above. -/

/-- Spec §4.4 face term: +40 for FOCUSED, −30 for DROWSY, 0 for DISTRACTED. -/
def Spec.faceTerm : AttentionState → Int
  | .FOCUSED => 40
  | .DROWSY => -30
  | .DISTRACTED => 0

/-- Spec §4.4 screen term: +30 for STUDY or EDUCATIONAL_VIDEO, −40 for
DISTRACTION_VIDEO or SOCIAL_MEDIA, 0 for OTHER. -/
def Spec.screenTerm : ContentCategory → Int
  | .STUDY => 30
  | .EDUCATIONAL_VIDEO => 30
  | .DISTRACTION_VIDEO => -40
  | .SOCIAL_MEDIA => -40
  | .OTHER => 0

/-- Spec §4.4 instantaneous score: `base(50) + faceTerm + screenTerm`,
clamped to `[0, 100]`. -/
def Spec.instScore (f : AttentionState) (c : ContentCategory) : Int :=
  clamp (50 + Spec.faceTerm f + Spec.screenTerm c) 0 100

/-- The face term `FocusScorer` actually applies (per `src/config.py`):
+40 FOCUSED, −40 DISTRACTED, −30 DROWSY. -/
def Spec.scorerFaceTerm : AttentionState → Int
  | .FOCUSED => 40
  | .DISTRACTED => -40
  | .DROWSY => -30

/-- The screen term `FocusScorer` actually applies (per `src/config.py`):
+30 STUDY / EDUCATIONAL_VIDEO, −40 DISTRACTION_VIDEO / SOCIAL_MEDIA,
0 OTHER. -/
def Spec.scorerScreenTerm : ContentCategory → Int
  | .STUDY => 30
  | .EDUCATIONAL_VIDEO => 30
  | .DISTRACTION_VIDEO => -40
  | .SOCIAL_MEDIA => -40
  | .OTHER => 0

/-! ## `modules/face_tracker.py` — `FaceTracker`

The geometric front end (landmarks → EAR / pose / gaze) is abstracted into a
per-frame signal record; the temporal bookkeeping and the classification
chain of `get_attention_state` are embedded faithfully.  Timestamps
(`datetime.now()`) are modelled as rational seconds threaded explicitly. -/

/-- The temporal tracking state of `modules/face_tracker.py` (lines 59-63):
lifetime blink counter, bounded deque of blink timestamps (maxlen 20) and
the nullable eye-closed start timestamp. -/
structure Modules.FaceTracker.State where
  blink_counter : Nat
  blink_timestamps : List Rat
  eye_closed_start : Option Rat
deriving DecidableEq, Repr

/-- The configurable thresholds read out of the config dict, with the
`dict.get` defaults used in `modules/face_tracker.py`. -/
structure Modules.FaceTracker.Thresholds where
  eye_closed_duration : Rat := 2
  drowsiness_blink_rate : Rat := 20
  distraction_head_angle : Rat := 30
  gaze_deviation_threshold : Rat := 0.3
deriving DecidableEq, Repr

/-- `self.ear_threshold = 0.21`, fixed in the constructor (line 63). -/
def Modules.FaceTracker.ear_threshold : Rat := 0.21

/-- The per-frame geometric signals consumed by `get_attention_state`
(outputs of the EAR, head-pose and gaze estimators on a detected face). -/
structure Modules.FaceTracker.Signals where
  left_ear : Rat
  right_ear : Rat
  pitch : Rat
  yaw : Rat
  roll : Rat
  gaze_deviation : Rat
deriving DecidableEq, Repr

/-- `FaceTracker.detect_blinks` (lines 124-148): on the transition of the
average EAR below `ear_threshold`, record the closure start, bump the blink
counter and append a timestamp to the bounded deque; on reopening, clear the
closure start.  Returns the updated state and the `bool` the method
returns. -/
def Modules.FaceTracker.detect_blinks
    (now : Rat) (s : Modules.FaceTracker.State) (left_ear right_ear : Rat) :
    Modules.FaceTracker.State × Bool :=
  let avg_ear := (left_ear + right_ear) / 2
  if avg_ear < Modules.FaceTracker.ear_threshold then
    match s.eye_closed_start with
    | none =>
      ({ s with
          eye_closed_start := some now
          blink_counter := s.blink_counter + 1
          blink_timestamps := deque_append 20 s.blink_timestamps now },
        true)
    | some _ => (s, false)
  else
    ({ s with eye_closed_start := none }, false)

/-- The first branch of `FaceTracker.is_drowsy` (lines 157-162): eyes closed
beyond the `eye_closed_duration` threshold. -/
def Modules.FaceTracker.closure_duration_check
    (th : Modules.FaceTracker.Thresholds) (now : Rat)
    (s : Modules.FaceTracker.State) : Bool :=
  match s.eye_closed_start with
  | some t0 => decide (now - t0 > th.eye_closed_duration)
  | none => false

/-- The second branch of `FaceTracker.is_drowsy` (lines 164-171): blink rate
over the bounded timestamp window above `drowsiness_blink_rate`
(blinks per minute, computed as `len / span * 60`). -/
def Modules.FaceTracker.blink_rate_check
    (th : Modules.FaceTracker.Thresholds)
    (s : Modules.FaceTracker.State) : Bool :=
  if s.blink_timestamps.length ≥ 2 then
    let time_span :=
      (s.blink_timestamps.getLast?).getD 0 - (s.blink_timestamps.head?).getD 0
    if time_span > 0 then
      decide ((s.blink_timestamps.length : Rat) / time_span * 60 >
        th.drowsiness_blink_rate)
    else false
  else false

/-- `FaceTracker.is_drowsy` (lines 150-173). -/
def Modules.FaceTracker.is_drowsy
    (th : Modules.FaceTracker.Thresholds) (now : Rat)
    (s : Modules.FaceTracker.State) : Bool :=
  Modules.FaceTracker.closure_duration_check th now s ||
    Modules.FaceTracker.blink_rate_check th s

/-- `FaceTracker.is_looking_away` (lines 244-256): a single
`distraction_head_angle` threshold applied to `|yaw|` and `|pitch|`. -/
def Modules.FaceTracker.is_looking_away
    (th : Modules.FaceTracker.Thresholds) (yaw pitch : Rat) : Bool :=
  decide (|yaw| > th.distraction_head_angle ∨
    |pitch| > th.distraction_head_angle)

/-- `FaceTracker.get_attention_state` (lines 291-359), from the point where a
frame either yields a landmark set (`some signals`) or does not (`none`:
no face detected, capture failure, or uninitialized tracker — all of which
return `DISTRACTED` without touching the temporal state). -/
def Modules.FaceTracker.get_attention_state
    (th : Modules.FaceTracker.Thresholds) (now : Rat)
    (s : Modules.FaceTracker.State)
    (obs : Option Modules.FaceTracker.Signals) :
    Modules.FaceTracker.State × AttentionState :=
  match obs with
  | none => (s, AttentionState.DISTRACTED)
  | some o =>
    let s' := (Modules.FaceTracker.detect_blinks now s o.left_ear o.right_ear).1
    if Modules.FaceTracker.is_drowsy th now s' then
      (s', AttentionState.DROWSY)
    else if Modules.FaceTracker.is_looking_away th o.yaw o.pitch then
      (s', AttentionState.DISTRACTED)
    else if o.gaze_deviation > th.gaze_deviation_threshold then
      (s', AttentionState.DISTRACTED)
    else
      (s', AttentionState.FOCUSED)

/-! ## `src/face_tracker.py` — `FaceTracker` -/

/-- The per-frame geometric signals consumed by `analyze_frame` after the
landmark stage (average EAR, head pose, gaze deviations). -/
structure Src.FaceTracker.FrameSignals where
  avg_ear : Rat
  pitch : Rat
  yaw : Rat
  roll : Rat
  gaze_h : Rat
  gaze_v : Rat
deriving DecidableEq, Repr

/-- The result dictionary returned by `analyze_frame`. -/
structure Src.FaceTracker.AnalysisResult where
  state : String
  ear : Rat
  gaze : Rat × Rat
  head_pose : Rat × Rat × Rat
  face_detected : Bool
deriving DecidableEq, Repr

/-- `FaceTracker.analyze_frame` (`src/face_tracker.py` lines 157-226).  The
only temporal state is `self.ear_frames_below_threshold`.  A frame with no
detected face (`none`) returns the default `DISTRACTED` dictionary and
leaves the counter unmodified; otherwise the counter is updated from the
average EAR and the state is decided by the drowsy / head-pose / gaze
chain. -/
def Src.FaceTracker.analyze_frame
    (ear_frames_below_threshold : Nat)
    (obs : Option Src.FaceTracker.FrameSignals) :
    Nat × Src.FaceTracker.AnalysisResult :=
  match obs with
  | none =>
    (ear_frames_below_threshold,
      { state := "DISTRACTED", ear := 0, gaze := (0, 0),
        head_pose := (0, 0, 0), face_detected := false })
  | some o =>
    let c' :=
      if o.avg_ear < EAR_THRESHOLD then ear_frames_below_threshold + 1 else 0
    let is_drowsy := decide (c' ≥ EAR_CONSEC_FRAMES)
    let state :=
      if is_drowsy then "DROWSY"
      else if |o.yaw| > HEAD_YAW_THRESHOLD ∨ |o.pitch| > HEAD_PITCH_THRESHOLD
        then "DISTRACTED"
      else if |o.gaze_h| > GAZE_THRESHOLD ∨ |o.gaze_v| > GAZE_THRESHOLD then
        "DISTRACTED"
      else "FOCUSED"
    (c', { state := state, ear := o.avg_ear, gaze := (o.gaze_h, o.gaze_v),
           head_pose := (o.pitch, o.yaw, o.roll), face_detected := true })

/-- Feeding a whole sequence of frames through `analyze_frame`, returning the
final counter and the last analysis result (if any frame was processed). -/
def Src.FaceTracker.run_frames
    (c : Nat) (frames : List (Option Src.FaceTracker.FrameSignals)) :
    Nat × Option Src.FaceTracker.AnalysisResult :=
  frames.foldl
    (fun acc o =>
      let r := Src.FaceTracker.analyze_frame acc.1 o
      (r.1, some r.2))
    (c, none)

/-! ## Spec-side drowsiness triggers (§4.2 of the specification)

The specification describes the drowsy decision as the OR of three
independent triggers, each computable from the run of
`(timestamp, avgEAR)` observations of a session.  These definitions follow
the specification's words, for comparison with the two implementations. -/

/-- Timestamps of transitions to closed (avgEAR dropping below the EAR
threshold), per §4.2 step 1.  The boolean argument carries whether the
previous frame was closed. -/
def Spec.blinkTimes (thr : Rat) : Bool → List (Rat × Rat) → List Rat
  | _, [] => []
  | prevClosed, (t, e) :: rest =>
    if e < thr then
      if prevClosed then Spec.blinkTimes thr true rest
      else t :: Spec.blinkTimes thr true rest
    else Spec.blinkTimes thr false rest

/-- The bounded window of the last 20 blink timestamps (§3 TemporalState). -/
def Spec.blinkWindow (thr : Rat) (run : List (Rat × Rat)) : List Rat :=
  let ts := Spec.blinkTimes thr false run
  ts.drop (ts.length - 20)

/-- §4.2 trigger (a): eyes closed beyond the duration threshold — the current
closure started more than `dur` seconds before the last frame. -/
def Spec.durationTrigger (thr dur : Rat) (run : List (Rat × Rat)) : Bool :=
  match run.getLast? with
  | none => false
  | some (tN, _) =>
    let start := run.foldl
      (fun acc te =>
        if te.2 < thr then (match acc with | none => some te.1 | some t0 => some t0)
        else none)
      none
    match start with
    | some t0 => decide (tN - t0 > dur)
    | none => false

/-- §4.2 trigger (b): consecutive-below-threshold frame count reaching the
fixed count. -/
def Spec.consecTrigger (thr : Rat) (count : Nat) (run : List (Rat × Rat)) :
    Bool :=
  decide (((run.reverse).takeWhile (fun te => te.2 < thr)).length ≥ count)

/-- §4.2 trigger (c): blink rate over the bounded timestamp window above the
rate threshold (blinks per minute). -/
def Spec.rateTrigger (thr rate : Rat) (run : List (Rat × Rat)) : Bool :=
  let w := Spec.blinkWindow thr run
  if w.length ≥ 2 then
    let span := (w.getLast?).getD 0 - (w.head?).getD 0
    if span > 0 then decide ((w.length : Rat) / span * 60 > rate)
    else false
  else false

/-- §4.2 drowsy decision as the specification states it: the logical OR of
the three triggers, at the example thresholds (2.0 s closure, count 3,
20 blinks/min). -/
def Spec.threeTriggerDrowsy (thr : Rat) (run : List (Rat × Rat)) : Bool :=
  Spec.durationTrigger thr 2 run || Spec.consecTrigger thr 3 run ||
    Spec.rateTrigger thr 20 run

/-! ## Head-pose estimation (perspective-n-point stage)

The external solver (`cv2.solvePnP` + `cv2.Rodrigues`) is abstracted into
its outcome: a success flag and the rotation-matrix entries the Euler
extraction reads.  The Euler extraction itself is embedded over `ℝ`. -/

/-- Outcome of the external PnP solve: the `success` flag returned by
`cv2.solvePnP` and the rotation matrix obtained via `cv2.Rodrigues`. -/
structure SolvePnP.Outcome where
  success : Bool
  r00 : ℝ
  r10 : ℝ
  r20 : ℝ
  r21 : ℝ
  r22 : ℝ

/-- `np.arctan2 y x`, by the standard branch structure over `Real.arctan`. -/
noncomputable def np_arctan2 (y x : ℝ) : ℝ :=
  if 0 < x then Real.arctan (y / x)
  else if x < 0 then
    (if 0 ≤ y then Real.arctan (y / x) + Real.pi
     else Real.arctan (y / x) - Real.pi)
  else
    (if 0 < y then Real.pi / 2
     else if y < 0 then -(Real.pi / 2)
     else 0)

/-- `np.degrees`: radians to degrees. -/
noncomputable def np_degrees (x : ℝ) : ℝ := x * 180 / Real.pi

/-- The Euler-angle extraction shared by both implementations
(`pitch = atan2(r21, r22)`, `yaw = atan2(-r20, sqrt(r21² + r22²))`,
`roll = atan2(r10, r00)`, all converted to degrees). -/
noncomputable def euler_angles (out : SolvePnP.Outcome) : ℝ × ℝ × ℝ :=
  (np_degrees (np_arctan2 out.r21 out.r22),
   np_degrees (np_arctan2 (-out.r20) (Real.sqrt (out.r21 ^ 2 + out.r22 ^ 2))),
   np_degrees (np_arctan2 out.r10 out.r00))

/-- `modules/face_tracker.py` `FaceTracker.estimate_head_pose`
(lines 220-242): Euler decomposition when the solve succeeds, the defined
fallback `(0, 0, 0)` when it fails. -/
noncomputable def Modules.FaceTracker.estimate_head_pose
    (out : SolvePnP.Outcome) : ℝ × ℝ × ℝ :=
  if out.success then euler_angles out else (0, 0, 0)

/-- `src/face_tracker.py` `FaceTracker.estimate_head_pose` (lines 68-122):
the `success` flag of `cv2.solvePnP` is never consulted — the rotation
vector is decomposed unconditionally. -/
noncomputable def Src.FaceTracker.estimate_head_pose
    (out : SolvePnP.Outcome) : ℝ × ℝ × ℝ :=
  euler_angles out

/-- A failed solve outcome whose (well-formed, 90°-roll) rotation matrix
shows the `src/` estimator does not fall back to `(0, 0, 0)`:
`r00 = 0`, `r10 = 1`, `r20 = 0`, `r21 = 0`, `r22 = 1`. -/
def SolvePnP.failedOutcome : SolvePnP.Outcome :=
  { success := false, r00 := 0, r10 := 1, r20 := 0, r21 := 0, r22 := 1 }

/-- An initial (session-start) temporal state for the `modules/` tracker. -/
def Modules.FaceTracker.initState : Modules.FaceTracker.State :=
  { blink_counter := 0, blink_timestamps := [], eye_closed_start := none }

/-- Default thresholds (every `dict.get` falls back to its default). -/
def Modules.FaceTracker.defaultThresholds : Modules.FaceTracker.Thresholds :=
  {}

/-- Frame signals with the head turned 35° (yaw) and pitched 5°, eyes open,
gaze centered — the spec's head-pose scenario. -/
def Modules.FaceTracker.yaw35Signals : Modules.FaceTracker.Signals :=
  { left_ear := 0.3, right_ear := 0.3, pitch := 5, yaw := 35, roll := 0,
    gaze_deviation := 0 }

/-- The same scenario for the `src/` tracker (thresholds 25°/20° there). -/
def Src.FaceTracker.yaw35Signals : Src.FaceTracker.FrameSignals :=
  { avg_ear := 0.3, pitch := 5, yaw := 35, roll := 0, gaze_h := 0,
    gaze_v := 0 }

/-- A six-frame run (timestamps in seconds, average EAR) of rapid blinking:
a blink every two seconds, eyes reopening each time.  Its blink rate is
45/min, above the 20/min threshold, while no closure lasts 2 s and no three
consecutive frames are closed. -/
def rapidBlinkRun : List (Rat × Rat) :=
  [(0, 0.1), (1, 0.4), (2, 0.1), (3, 0.4), (4, 0.1), (5, 0.4)]

/-- The same run presented to the `src/` tracker (head pose and gaze
centered). -/
def rapidBlinkFrames : List (Option Src.FaceTracker.FrameSignals) :=
  rapidBlinkRun.map (fun te =>
    some { avg_ear := te.2, pitch := 0, yaw := 0, roll := 0, gaze_h := 0,
           gaze_v := 0 })

/-! ## Shared lemmas -/

/-- The clamped instantaneous score of `FocusScorer` lies in `[0, 100]` for
every pair of input strings. -/
lemma FocusScorer.instantaneous_bounds (face_state screen_class : String) :
    0 ≤ FocusScorer.instantaneous face_state screen_class ∧
      FocusScorer.instantaneous face_state screen_class ≤ 100 := by
  unfold FocusScorer.instantaneous
  simp only [MIN_FOCUS_SCORE, MAX_FOCUS_SCORE]
  exact ⟨le_max_left _ _, max_le (by norm_num) (min_le_left _ _)⟩

/-- One smoothing step of `FocusScorer` keeps the running score in
`[0, 100]` whenever the previous score is in `[0, 100]`. -/
lemma FocusScorer.calculate_score_bounds (p : Int) (h0 : 0 ≤ p)
    (h1 : p ≤ 100) (face_state screen_class : String) :
    0 ≤ FocusScorer.calculate_score p face_state screen_class ∧
      FocusScorer.calculate_score p face_state screen_class ≤ 100 := by
  obtain ⟨hq0, hq1⟩ := FocusScorer.instantaneous_bounds face_state screen_class
  unfold FocusScorer.calculate_score py_int
  set q := FocusScorer.instantaneous face_state screen_class with hq
  have hp0 : (0 : Rat) ≤ (p : Rat) := by exact_mod_cast h0
  have hp1 : (p : Rat) ≤ 100 := by exact_mod_cast h1
  have hQ0 : (0 : Rat) ≤ (q : Rat) := by exact_mod_cast hq0
  have hQ1 : (q : Rat) ≤ 100 := by exact_mod_cast hq1
  have hv0 : (0 : Rat) ≤ 0.7 * (p : Rat) + 0.3 * (q : Rat) := by linarith
  have hv1 : 0.7 * (p : Rat) + 0.3 * (q : Rat) ≤ 100 := by linarith
  rw [if_pos hv0]
  constructor
  · exact_mod_cast Int.floor_nonneg.mpr hv0
  · calc ⌊0.7 * (p : Rat) + 0.3 * (q : Rat)⌋ ≤ ⌊(100 : Rat)⌋ :=
        Int.floor_le_floor hv1
      _ = 100 := by norm_num

/-- The running score of `FocusScorer.run` stays in `[0, 100]` from any
starting value in `[0, 100]`. -/
lemma FocusScorer.foldl_bounds (readings : List (String × String)) :
    ∀ p : Int, 0 ≤ p → p ≤ 100 →
      0 ≤ readings.foldl
          (fun current_score r =>
            FocusScorer.calculate_score current_score r.1 r.2) p ∧
        readings.foldl
          (fun current_score r =>
            FocusScorer.calculate_score current_score r.1 r.2) p ≤ 100 := by
  induction readings with
  | nil => exact fun p h0 h1 => ⟨h0, h1⟩
  | cons r rest ih =>
    intro p h0 h1
    obtain ⟨s0, s1⟩ := FocusScorer.calculate_score_bounds p h0 h1 r.1 r.2
    exact ih _ s0 s1

/-! ## Claim theorems -/

/-- Claim C1: for every attention state, content category and previous
smoothed score in `[0, 100]`, both score-update operations
(`FocusCalculator.calculate_score` and `FocusScorer.calculate_score`) return
an integer in `[0, 100]`, and the exponentially smoothed running score of
`FocusScorer` stays in `[0, 100]` across any sequence of calls starting from
the initial value 50. -/
theorem C1_scores_within_bounds :
    (∀ (f : AttentionState) (c : ContentCategory),
      0 ≤ FocusCalculator.calculate_score f c ∧
        FocusCalculator.calculate_score f c ≤ 100) ∧
    (∀ (p : Int) (face_state screen_class : String), 0 ≤ p → p ≤ 100 →
      0 ≤ FocusScorer.calculate_score p face_state screen_class ∧
        FocusScorer.calculate_score p face_state screen_class ≤ 100) ∧
    (∀ readings : List (String × String),
      0 ≤ FocusScorer.run readings ∧ FocusScorer.run readings ≤ 100) :=
  ⟨by decide,
    fun p face_state screen_class h0 h1 =>
      FocusScorer.calculate_score_bounds p h0 h1 face_state screen_class,
    fun readings => FocusScorer.foldl_bounds readings 50 (by decide) (by decide)⟩

/-- Witness for C1 at previous score 50, face FOCUSED, screen STUDY. -/
theorem C1_scores_within_bounds_witness :
    ((0 : Int) ≤ 50 ∧ (50 : Int) ≤ 100) ∧
    (0 ≤ FocusScorer.calculate_score 50 "FOCUSED" "STUDY" ∧
      FocusScorer.calculate_score 50 "FOCUSED" "STUDY" ≤ 100) :=
  ⟨⟨by decide, by decide⟩,
    C1_scores_within_bounds.2.1 50 "FOCUSED" "STUDY" (by decide) (by decide)⟩

/-- Claim C2: `decideActivity(DROWSY, c) = FATIGUED` for every content
category, in both the `DecisionEngine` if-chain and the `ActivityEngine`
lookup table. -/
theorem C2_drowsy_always_fatigued :
    (∀ c : ContentCategory,
      DecisionEngine.determine_activity AttentionState.DROWSY c =
        ActivityStatus.FATIGUED) ∧
    (∀ c : ContentCategory,
      ActivityEngine.determine_activity "DROWSY" c.value = "FATIGUED") := by
  constructor <;> intro c <;> cases c <;> rfl

/-- Claim C3 counterexample: at face DISTRACTED and screen OTHER the
spec formula gives `clamp(50 + 0 + 0) = 50`, but `FocusScorer`'s
pre-smoothing score is `0` (it has no base-50 term and penalizes DISTRACTED
by 40). -/
theorem C3_counterexample :
    FocusScorer.instantaneous AttentionState.DISTRACTED.value
        ContentCategory.OTHER.value = 0 ∧
    Spec.instScore AttentionState.DISTRACTED ContentCategory.OTHER = 50 ∧
    (0 : Int) ≠ 50 := by decide

/-- Claim C3 amended: the base-50 formula of the spec holds for
`FocusCalculator.calculate_score`; `FocusScorer`'s pre-smoothing score
instead has no base term and uses face term +40 FOCUSED / −40 DISTRACTED /
−30 DROWSY with the same screen term, clamped to `[0, 100]`. -/
theorem C3_instantaneous_formula :
    (∀ (f : AttentionState) (c : ContentCategory),
      FocusCalculator.calculate_score f c = Spec.instScore f c) ∧
    (∀ (f : AttentionState) (c : ContentCategory),
      FocusScorer.instantaneous f.value c.value =
        max MIN_FOCUS_SCORE
          (min MAX_FOCUS_SCORE
            (Spec.scorerFaceTerm f + Spec.scorerScreenTerm c))) := by
  constructor <;> intro f c <;> cases f <;> cases c <;> decide

/-- Claim C4 counterexample: the spec's worked scenarios fail on
`FocusScorer.calculate_score` — with previous score 50, FOCUSED, STUDY the
instantaneous score is not 100 and the smoothed score is not 65; with
previous score 65, DISTRACTED, SOCIAL_MEDIA the instantaneous score is not
10 and the smoothed score is not 48. -/
theorem C4_counterexample :
    FocusScorer.instantaneous "FOCUSED" "STUDY" ≠ 100 ∧
    FocusScorer.calculate_score 50 "FOCUSED" "STUDY" ≠ 65 ∧
    FocusScorer.instantaneous "DISTRACTED" "SOCIAL_MEDIA" ≠ 10 ∧
    FocusScorer.calculate_score 65 "DISTRACTED" "SOCIAL_MEDIA" ≠ 48 := by
  have h1 : FocusScorer.instantaneous "FOCUSED" "STUDY" = 70 := by decide
  have h2 : FocusScorer.calculate_score 50 "FOCUSED" "STUDY" = 56 := by
    norm_num [FocusScorer.calculate_score, h1, py_int]
  have h3 : FocusScorer.instantaneous "DISTRACTED" "SOCIAL_MEDIA" = 0 := by
    decide
  have h4 : FocusScorer.calculate_score 65 "DISTRACTED" "SOCIAL_MEDIA" = 45 := by
    norm_num [FocusScorer.calculate_score, h3, py_int]
  refine ⟨by rw [h1]; decide, by rw [h2]; decide, by rw [h3]; decide,
    by rw [h4]; decide⟩

/-- Claim C4 amended: on the code, previous score 50 with FOCUSED / STUDY
gives instantaneous score 70 and smoothed score 56; previous score 65 with
DISTRACTED / SOCIAL_MEDIA gives instantaneous score 0 and smoothed score 45
(the smoothing truncates `0.7·prev + 0.3·inst`). -/
theorem C4_scorer_worked_scenarios :
    FocusScorer.instantaneous "FOCUSED" "STUDY" = 70 ∧
    FocusScorer.calculate_score 50 "FOCUSED" "STUDY" = 56 ∧
    FocusScorer.instantaneous "DISTRACTED" "SOCIAL_MEDIA" = 0 ∧
    FocusScorer.calculate_score 65 "DISTRACTED" "SOCIAL_MEDIA" = 45 := by
  have h1 : FocusScorer.instantaneous "FOCUSED" "STUDY" = 70 := by decide
  have h3 : FocusScorer.instantaneous "DISTRACTED" "SOCIAL_MEDIA" = 0 := by
    decide
  refine ⟨h1, ?_, h3, ?_⟩
  · norm_num [FocusScorer.calculate_score, h1, py_int]
  · norm_num [FocusScorer.calculate_score, h3, py_int]

/-- Claim C5: for every non-DROWSY face state, screen category
DISTRACTION_VIDEO or SOCIAL_MEDIA yields DISTRACTED in both decision
engines. -/
theorem C5_distracting_content_overrides (f : AttentionState)
    (c : ContentCategory) (hf : f ≠ AttentionState.DROWSY)
    (hc : c = ContentCategory.DISTRACTION_VIDEO ∨
      c = ContentCategory.SOCIAL_MEDIA) :
    DecisionEngine.determine_activity f c = ActivityStatus.DISTRACTED ∧
    ActivityEngine.determine_activity f.value c.value = "DISTRACTED" := by
  revert hf hc
  revert f c
  decide

/-- Witness for C5 at face FOCUSED and screen DISTRACTION_VIDEO. -/
theorem C5_distracting_content_overrides_witness :
    (AttentionState.FOCUSED ≠ AttentionState.DROWSY ∧
      (ContentCategory.DISTRACTION_VIDEO = ContentCategory.DISTRACTION_VIDEO ∨
        ContentCategory.DISTRACTION_VIDEO = ContentCategory.SOCIAL_MEDIA)) ∧
    (DecisionEngine.determine_activity AttentionState.FOCUSED
        ContentCategory.DISTRACTION_VIDEO = ActivityStatus.DISTRACTED ∧
      ActivityEngine.determine_activity AttentionState.FOCUSED.value
        ContentCategory.DISTRACTION_VIDEO.value = "DISTRACTED") :=
  ⟨⟨by decide, by decide⟩,
    C5_distracting_content_overrides AttentionState.FOCUSED
      ContentCategory.DISTRACTION_VIDEO (by decide) (by decide)⟩

/-- Claim C10: with an empty score history — including immediately after
`reset_history` — both `get_average_score` and `get_current_score` return
0. -/
theorem C10_empty_history_scores_zero :
    FocusCalculator.get_average_score [] = 0 ∧
    FocusCalculator.get_current_score [] = 0 ∧
    (∀ score_history : List Int,
      FocusCalculator.get_average_score
          (FocusCalculator.reset_history score_history) = 0 ∧
        FocusCalculator.get_current_score
          (FocusCalculator.reset_history score_history) = 0) :=
  ⟨by decide, by decide, fun _ => ⟨rfl, rfl⟩⟩

/-- Claim C6 counterexample: a six-frame rapid-blink run satisfies the
spec's blink-rate trigger (45 blinks/min > 20/min), hence the spec's
three-trigger OR classifies it DROWSY, but `src/face_tracker.py` classifies
the last frame FOCUSED (its drowsy decision is the consecutive-frames
counter alone, which never reaches 3 on this run). -/
theorem C6_counterexample :
    Spec.threeTriggerDrowsy EAR_THRESHOLD rapidBlinkRun = true ∧
    ((Src.FaceTracker.run_frames 0 rapidBlinkFrames).2.map
      Src.FaceTracker.AnalysisResult.state) = some "FOCUSED" ∧
    "FOCUSED" ≠ "DROWSY" := by
  refine ⟨?_, ?_, by decide⟩
  · norm_num [Spec.threeTriggerDrowsy, Spec.durationTrigger, Spec.consecTrigger,
      Spec.rateTrigger, Spec.blinkWindow, Spec.blinkTimes, EAR_THRESHOLD,
      rapidBlinkRun, List.foldl, List.takeWhile]
  · have h : (Src.FaceTracker.run_frames 0 rapidBlinkFrames).2 =
        some { state := "FOCUSED", ear := 0.4, gaze := (0, 0),
               head_pose := (0, 0, 0), face_detected := true } := by
      norm_num [Src.FaceTracker.run_frames, Src.FaceTracker.analyze_frame,
        rapidBlinkFrames, rapidBlinkRun, EAR_THRESHOLD, EAR_CONSEC_FRAMES,
        HEAD_YAW_THRESHOLD, HEAD_PITCH_THRESHOLD, GAZE_THRESHOLD, List.foldl]
    rw [h]
    rfl

/-- Claim C6 amended: no classifier combines three triggers —
`modules/face_tracker.py` `is_drowsy` is the OR of exactly two triggers
(eye-closure duration and blink rate over the bounded window), and the
drowsy decision of `src/face_tracker.py` `analyze_frame` is exactly the
consecutive-frames trigger (counter ≥ `EAR_CONSEC_FRAMES`). -/
theorem C6_drowsy_triggers :
    (∀ (th : Modules.FaceTracker.Thresholds) (now : Rat)
        (s : Modules.FaceTracker.State),
      Modules.FaceTracker.is_drowsy th now s =
        (Modules.FaceTracker.closure_duration_check th now s ||
          Modules.FaceTracker.blink_rate_check th s)) ∧
    (∀ (c : Nat) (o : Src.FaceTracker.FrameSignals),
      (Src.FaceTracker.analyze_frame c (some o)).2.state = "DROWSY" ↔
        (if o.avg_ear < EAR_THRESHOLD then c + 1 else 0) ≥
          EAR_CONSEC_FRAMES) := by
  refine ⟨fun th now s => rfl, fun c o => ?_⟩
  by_cases hd :
    (if o.avg_ear < EAR_THRESHOLD then c + 1 else 0) ≥ EAR_CONSEC_FRAMES
  · simp [Src.FaceTracker.analyze_frame, hd]
  · simp only [Src.FaceTracker.analyze_frame, hd, decide_eq_true_eq, ge_iff_le,
      decide_eq_false_iff_not, not_false_eq_true, if_false]
    split_ifs <;> simp [hd]

/-- Claim C7: on a frame with a detected face that is not classified DROWSY,
an out-of-threshold |yaw| or |pitch| forces DISTRACTED regardless of the
gaze values, in both trackers (head pose is checked before gaze). -/
theorem C7_headpose_forces_distracted :
    (∀ (c : Nat) (o : Src.FaceTracker.FrameSignals),
      (Src.FaceTracker.analyze_frame c (some o)).2.state ≠ "DROWSY" →
      (|o.yaw| > HEAD_YAW_THRESHOLD ∨ |o.pitch| > HEAD_PITCH_THRESHOLD) →
      (Src.FaceTracker.analyze_frame c (some o)).2.state = "DISTRACTED") ∧
    (∀ (th : Modules.FaceTracker.Thresholds) (now : Rat)
        (s : Modules.FaceTracker.State) (o : Modules.FaceTracker.Signals),
      (Modules.FaceTracker.get_attention_state th now s (some o)).2 ≠
        AttentionState.DROWSY →
      (|o.yaw| > th.distraction_head_angle ∨
        |o.pitch| > th.distraction_head_angle) →
      (Modules.FaceTracker.get_attention_state th now s (some o)).2 =
        AttentionState.DISTRACTED) := by
  constructor
  · intro c o h1 h2
    by_cases hd :
      (if o.avg_ear < EAR_THRESHOLD then c + 1 else 0) ≥ EAR_CONSEC_FRAMES
    · exact absurd (by simp [Src.FaceTracker.analyze_frame, hd]) h1
    · simp [Src.FaceTracker.analyze_frame, hd, h2]
  · intro th now s o h1 h2
    have hl : Modules.FaceTracker.is_looking_away th o.yaw o.pitch = true := by
      simp only [Modules.FaceTracker.is_looking_away, decide_eq_true_eq]
      exact h2
    by_cases hd : Modules.FaceTracker.is_drowsy th now
        (Modules.FaceTracker.detect_blinks now s o.left_ear o.right_ear).1 =
        true
    · exact absurd (by simp [Modules.FaceTracker.get_attention_state, hd]) h1
    · simp [Modules.FaceTracker.get_attention_state, hd, hl]

/-- Witness for C7: the spec's scenario yaw = 35°, pitch = 5° (thresholds
25°/20° in `src/`, 30° in `modules/`), eyes open and gaze centered, yields
DISTRACTED in both trackers. -/
theorem C7_headpose_forces_distracted_witness :
    (((Src.FaceTracker.analyze_frame 0
          (some Src.FaceTracker.yaw35Signals)).2.state ≠ "DROWSY" ∧
      (|Src.FaceTracker.yaw35Signals.yaw| > HEAD_YAW_THRESHOLD ∨
        |Src.FaceTracker.yaw35Signals.pitch| > HEAD_PITCH_THRESHOLD)) ∧
      (Src.FaceTracker.analyze_frame 0
        (some Src.FaceTracker.yaw35Signals)).2.state = "DISTRACTED") ∧
    (((Modules.FaceTracker.get_attention_state
            Modules.FaceTracker.defaultThresholds 0
            Modules.FaceTracker.initState
            (some Modules.FaceTracker.yaw35Signals)).2 ≠
          AttentionState.DROWSY ∧
        (|Modules.FaceTracker.yaw35Signals.yaw| >
            Modules.FaceTracker.defaultThresholds.distraction_head_angle ∨
          |Modules.FaceTracker.yaw35Signals.pitch| >
            Modules.FaceTracker.defaultThresholds.distraction_head_angle)) ∧
      (Modules.FaceTracker.get_attention_state
          Modules.FaceTracker.defaultThresholds 0
          Modules.FaceTracker.initState
          (some Modules.FaceTracker.yaw35Signals)).2 =
        AttentionState.DISTRACTED) := by
  have hs1 : (Src.FaceTracker.analyze_frame 0
      (some Src.FaceTracker.yaw35Signals)).2.state ≠ "DROWSY" := by
    norm_num [Src.FaceTracker.analyze_frame, Src.FaceTracker.yaw35Signals,
      EAR_THRESHOLD, EAR_CONSEC_FRAMES, HEAD_YAW_THRESHOLD,
      HEAD_PITCH_THRESHOLD]
    decide
  have hs2 : |Src.FaceTracker.yaw35Signals.yaw| > HEAD_YAW_THRESHOLD ∨
      |Src.FaceTracker.yaw35Signals.pitch| > HEAD_PITCH_THRESHOLD := by
    left
    norm_num [Src.FaceTracker.yaw35Signals, HEAD_YAW_THRESHOLD, abs]
  have hm1 : (Modules.FaceTracker.get_attention_state
      Modules.FaceTracker.defaultThresholds 0 Modules.FaceTracker.initState
      (some Modules.FaceTracker.yaw35Signals)).2 ≠ AttentionState.DROWSY := by
    norm_num [Modules.FaceTracker.get_attention_state,
      Modules.FaceTracker.detect_blinks, Modules.FaceTracker.is_drowsy,
      Modules.FaceTracker.closure_duration_check,
      Modules.FaceTracker.blink_rate_check, Modules.FaceTracker.is_looking_away,
      Modules.FaceTracker.ear_threshold, Modules.FaceTracker.initState,
      Modules.FaceTracker.defaultThresholds, Modules.FaceTracker.yaw35Signals]
    decide
  have hm2 : |Modules.FaceTracker.yaw35Signals.yaw| >
      Modules.FaceTracker.defaultThresholds.distraction_head_angle ∨
      |Modules.FaceTracker.yaw35Signals.pitch| >
        Modules.FaceTracker.defaultThresholds.distraction_head_angle := by
    left
    norm_num [Modules.FaceTracker.yaw35Signals,
      Modules.FaceTracker.defaultThresholds, abs]
  exact ⟨⟨⟨hs1, hs2⟩,
      C7_headpose_forces_distracted.1 0 Src.FaceTracker.yaw35Signals hs1 hs2⟩,
    ⟨⟨hm1, hm2⟩,
      C7_headpose_forces_distracted.2 Modules.FaceTracker.defaultThresholds 0
        Modules.FaceTracker.initState Modules.FaceTracker.yaw35Signals hm1
        hm2⟩⟩

/-- Claim C9: on a frame with no detected face, both trackers return the
default DISTRACTED result (with `face_detected = false` where the flag is
reported) and leave the temporal state unmodified. -/
theorem C9_no_face_default :
    (∀ (th : Modules.FaceTracker.Thresholds) (now : Rat)
        (s : Modules.FaceTracker.State),
      Modules.FaceTracker.get_attention_state th now s none =
        (s, AttentionState.DISTRACTED)) ∧
    (∀ c : Nat,
      Src.FaceTracker.analyze_frame c none =
        (c, { state := "DISTRACTED", ear := 0, gaze := (0, 0),
              head_pose := (0, 0, 0), face_detected := false })) :=
  ⟨fun _ _ _ => rfl, fun _ => rfl⟩

/-- `np.arctan2 0 1 = 0`. -/
lemma np_arctan2_zero_one : np_arctan2 0 1 = 0 := by
  unfold np_arctan2
  rw [if_pos one_pos]
  simp [Real.arctan_zero]

/-- `np.arctan2 1 0 = π / 2`. -/
lemma np_arctan2_one_zero : np_arctan2 1 0 = Real.pi / 2 := by
  unfold np_arctan2
  norm_num

/-- Degrees of a zero angle. -/
lemma np_degrees_zero : np_degrees 0 = 0 := by
  unfold np_degrees
  ring

/-- `π / 2` radians is 90 degrees. -/
lemma np_degrees_pi_div_two : np_degrees (Real.pi / 2) = 90 := by
  unfold np_degrees
  have h := Real.pi_ne_zero
  field_simp
  ring

/-- Euler decomposition of the failed outcome's rotation matrix: a pure
90° roll. -/
lemma euler_angles_failedOutcome :
    euler_angles SolvePnP.failedOutcome = (0, 0, 90) := by
  unfold euler_angles SolvePnP.failedOutcome
  simp only
  rw [neg_zero]
  have hsq : Real.sqrt ((0 : ℝ) ^ 2 + 1 ^ 2) = 1 := by
    norm_num
  rw [hsq, np_arctan2_zero_one, np_arctan2_one_zero, np_degrees_zero,
    np_degrees_pi_div_two]

/-- Claim C8 counterexample: on a failed solve whose reported rotation
matrix is a pure 90° roll, the `src/face_tracker.py` estimator returns
`(0, 0, 90)`, not the defined degraded value `(0, 0, 0)` — it never
consults the success flag. -/
theorem C8_counterexample :
    SolvePnP.failedOutcome.success = false ∧
    Src.FaceTracker.estimate_head_pose SolvePnP.failedOutcome ≠
      (0, 0, 0) := by
  refine ⟨rfl, ?_⟩
  have h : Src.FaceTracker.estimate_head_pose SolvePnP.failedOutcome =
      (0, 0, 90) := euler_angles_failedOutcome
  rw [h]
  intro heq
  have h90 : (90 : ℝ) = 0 := congrArg (fun t : ℝ × ℝ × ℝ => t.2.2) heq
  norm_num at h90

/-- Claim C8 amended: the `modules/face_tracker.py` estimator returns the
defined degraded value `(0, 0, 0)` whenever the solve reports failure,
while the `src/face_tracker.py` estimator ignores the success flag and
returns the Euler decomposition of whatever rotation the solver produced. -/
theorem C8_pose_solve_failure_fallback :
    (∀ out : SolvePnP.Outcome, out.success = false →
      Modules.FaceTracker.estimate_head_pose out = (0, 0, 0)) ∧
    (∀ out : SolvePnP.Outcome,
      Src.FaceTracker.estimate_head_pose out = euler_angles out) := by
  constructor
  · intro out h
    unfold Modules.FaceTracker.estimate_head_pose
    rw [h]
    rfl
  · intro out
    rfl

/-- Witness for C8 at the concrete failed outcome: the `modules/` estimator
does return `(0, 0, 0)` there. -/
theorem C8_pose_solve_failure_fallback_witness :
    SolvePnP.failedOutcome.success = false ∧
    Modules.FaceTracker.estimate_head_pose SolvePnP.failedOutcome =
      (0, 0, 0) :=
  ⟨rfl, C8_pose_solve_failure_fallback.1 SolvePnP.failedOutcome rfl⟩
